import Mathlib

/-!
# Water Tanks Dashboard (`frontend/src/App.jsx`)

A shallow embedding of the dashboard component: the JavaScript values it
receives from the two polled endpoints, the projection of the raw payloads to
per-tank readings and predictions, the computation of one table row, the table
body, and the two write actions.

JavaScript values are modelled by `JSVal`: `undefined`, the values that
`res.json()` yields, and the members that every object inherits from
`Object.prototype`.  Finite numbers are binary fractions `m / 2 ^ k` (every
IEEE double is one); `NaN` and the two infinities are separate constructors.
Objects are association lists of their own data properties, first binding
wins; a property that an object does not own is looked up in
`Object.prototype`.  Code that can throw returns `Except JSError`.  What the
component leaves to the engine (the locale date format, the string form of
numbers outside the fixed-point range, the number a string denotes, the
conversion of arrays and built-in objects to primitives) is a parameter,
`Host`.
-/

namespace TankDashboard

/-! ## JavaScript values -/

/-- JavaScript numbers: `NaN`, plus or minus `Infinity`, or the finite value
`m / 2 ^ k`. -/
inductive JSNum where
  | nan
  | inf (neg : Bool)
  | fin (m : Int) (k : Nat)
deriving DecidableEq, Repr

/-- JavaScript values: `undefined`, the values that come out of `res.json()`,
and `builtin name`, the member `name` of `Object.prototype` (a built-in
function, or the prototype object itself for `__proto__`). -/
inductive JSVal where
  | undefined
  | null
  | bool (b : Bool)
  | num (n : JSNum)
  | str (s : String)
  | obj (fields : List (String × JSVal))
  | arr (items : List JSVal)
  | builtin (name : String)

/-- Errors thrown by the modelled code. -/
inductive JSError where
  | typeError (msg : String)
deriving DecidableEq, Repr

/-- The empty object literal `{}`. -/
def emptyObj : JSVal := JSVal.obj []

/-- The number is `+0`, `-0`. -/
def JSNum.isZero : JSNum → Bool
  | JSNum.fin m _ => m == 0
  | _ => false

/-- JavaScript `ToBoolean`. -/
def truthy : JSVal → Bool
  | JSVal.undefined => false
  | JSVal.null => false
  | JSVal.bool b => b
  | JSVal.num JSNum.nan => false
  | JSVal.num n => !n.isZero
  | JSVal.str s => s != ""
  | JSVal.obj _ => true
  | JSVal.arr _ => true
  | JSVal.builtin _ => true

/-- The operator `a || b`. -/
def jsOr (a b : JSVal) : JSVal := if truthy a then a else b

/-- The operator `a ?? b` (used by the specification, not by the code). -/
def nullish (a b : JSVal) : JSVal :=
  match a with
  | JSVal.undefined => b
  | JSVal.null => b
  | v => v

/-- The own data property `k` of a value, if it has one. -/
def ownProp (v : JSVal) (k : String) : Option JSVal :=
  match v with
  | JSVal.obj fs => (fs.find? (fun kv => kv.1 == k)).map (fun kv => kv.2)
  | _ => none

/-- Own data property `k` of a value; `undefined` when there is none. -/
def field (v : JSVal) (k : String) : JSVal := (ownProp v k).getD JSVal.undefined

/-- The names of the properties of `Object.prototype`, which every object
inherits. -/
def objectPrototypeKeys : List String :=
  ["constructor", "hasOwnProperty", "isPrototypeOf", "propertyIsEnumerable",
   "toLocaleString", "toString", "valueOf", "__proto__", "__defineGetter__",
   "__defineSetter__", "__lookupGetter__", "__lookupSetter__"]

/-- The result of `[[Get]]` on a value other than `undefined` and `null`: the
own property, else the member inherited from `Object.prototype`, else
`undefined`.  Members particular to strings, arrays and functions (`length`
and the like) are outside the model; the component reads none of them. -/
def member (v : JSVal) (k : String) : JSVal :=
  match ownProp v k with
  | some x => x
  | none => if k ∈ objectPrototypeKeys then JSVal.builtin k else JSVal.undefined

/-- Property access `v.k` or `v[k]`: throws on `undefined` and `null`. -/
def getProp (v : JSVal) (k : String) : Except JSError JSVal :=
  match v with
  | JSVal.undefined => Except.error (JSError.typeError "Cannot read properties of undefined")
  | JSVal.null => Except.error (JSError.typeError "Cannot read properties of null")
  | w => Except.ok (member w k)

/-- Strict comparison `v === s` against a string literal. -/
def strictEqStr (v : JSVal) (s : String) : Bool :=
  match v with
  | JSVal.str t => t == s
  | _ => false

/-- The test `typeof v === "number"`. -/
def isNumber : JSVal → Bool
  | JSVal.num _ => true
  | _ => false

/-- The value can be called: among the modelled values only built-in
functions can. -/
def isCallable : JSVal → Bool
  | JSVal.builtin _ => true
  | _ => false

/-! ## Tank registry -/

/-- A tank descriptor of the registry. -/
structure Tank where
  id : String
  name : String
  location : String
  capacity : Nat
  imageUrl : String
deriving DecidableEq, Repr

/-- The initial value of the `tanks` state. -/
def initialTanks : List Tank :=
  [ { id := "tank1", name := "Main Building", location := "Rooftop",
      capacity := 1500, imageUrl := "/tank1.jpg" },
    { id := "tank2", name := "Annex Building", location := "Underground",
      capacity := 1900, imageUrl := "/tank2.jpg" } ]

/-! ## Projection of the raw payloads -/

/-- The memoised `readings` map computed from `sensorData`. -/
def readings (sensorData : JSVal) : Except JSError JSVal :=
  if !truthy sensorData then Except.ok emptyObj
  else do
    let t1 ← getProp sensorData "tank1"
    let t2 ← getProp sensorData "tank2"
    Except.ok (JSVal.obj [("tank1", jsOr t1 emptyObj), ("tank2", jsOr t2 emptyObj)])

/-- The memoised `predictions` map computed from `predictionData`. -/
def predictions (predictionData : JSVal) : Except JSError JSVal :=
  if !truthy predictionData then Except.ok emptyObj
  else do
    let t1 ← getProp predictionData "tank1_prediction"
    let t2 ← getProp predictionData "tank2_prediction"
    Except.ok (JSVal.obj [("tank1", jsOr t1 emptyObj), ("tank2", jsOr t2 emptyObj)])

/-- The row lookups `readings[tank.id] || {}` and `predictions[tank.id] || {}`
on an already computed map. -/
def lookupOrEmpty (m : JSVal) (k : String) : Except JSError JSVal := do
  let v ← getProp m k
  Except.ok (jsOr v emptyObj)

/-- The reading `r` used for the row of `tank`, from the raw sensor payload. -/
def rowReading (sensorData : JSVal) (tank : Tank) : Except JSError JSVal := do
  let rs ← readings sensorData
  lookupOrEmpty rs tank.id

/-- The prediction `p` used for the row of `tank`, from the raw prediction
payload. -/
def rowPrediction (predictionData : JSVal) (tank : Tank) : Except JSError JSVal := do
  let ps ← predictions predictionData
  lookupOrEmpty ps tank.id

/-- The reading the specification asks for: `rawReadings[tankId] ?? {}`, the
empty object before the first fetch. -/
def specReading (rawReadings : JSVal) (tankId : String) : JSVal :=
  nullish (field rawReadings tankId) emptyObj

/-- The prediction the specification asks for:
`rawPredictions[tankId + "_prediction"] ?? {}`. -/
def specPrediction (rawPredictions : JSVal) (tankId : String) : JSVal :=
  nullish (field rawPredictions (tankId ++ "_prediction")) emptyObj

/-! ## Built-in operations -/

/-- Behaviour of the host environment that the component relies on and that is
not fixed by the component itself. -/
structure Host where
  /-- `Number::toString` of the finite value `m / 2 ^ k` when it is not an
  integer below `10 ^ 21` in absolute value. -/
  finiteToString : Int → Nat → String
  /-- The result of `new Date(v).toLocaleDateString()` for a primitive `v`. -/
  localeDate : JSVal → String
  /-- `StringToNumber`: the number a string denotes, `NaN` when none. -/
  stringToNumber : String → JSNum
  /-- `ToPrimitive` where the engine has to run built-in code: on arrays, on
  built-in objects, and on objects with a callable `valueOf` or `toString` of
  their own. -/
  toPrimitive : JSVal → Except JSError JSVal

/-- The decimal digit `d` as a character. -/
def digitChar (d : Nat) : Char := Char.ofNat (48 + d % 10)

/-- The integer `n`, read as a count of hundredths, written with exactly two
decimals: `746` gives `"7.46"`, `5` gives `"0.05"`. -/
def hundredths (n : Nat) : String :=
  Nat.repr (n / 100) ++ "." ++ String.mk [digitChar (n / 10), digitChar n]

/-- The integer nearest to `100 * |m| / 2 ^ k`, the larger one on a tie. -/
def nearestHundredth (m : Int) (k : Nat) : Nat :=
  (m.natAbs * 200 + 2 ^ k) / (2 * 2 ^ k)

/-- The method `Number.prototype.toFixed(2)`. -/
def toFixed2 (h : Host) : JSNum → String
  | JSNum.nan => "NaN"
  | JSNum.inf false => "Infinity"
  | JSNum.inf true => "-Infinity"
  | JSNum.fin m k =>
    if 10 ^ 21 * 2 ^ k ≤ m.natAbs then h.finiteToString m k
    else (if m < 0 then "-" else "") ++ hundredths (nearestHundredth m k)

/-- The call `v.toFixed(2)` on an arbitrary truthy value: only numbers have the
method. -/
def callToFixed2 (h : Host) : JSVal → Except JSError JSVal
  | JSVal.num n => Except.ok (JSVal.str (toFixed2 h n))
  | _ => Except.error (JSError.typeError "toFixed is not a function")

/-- The abstract operation `ToPrimitive` as `Math.round` and `new Date` apply
it.  A primitive is returned as it is.  On an object the engine tries
`valueOf`, then `toString`: a member of its own that is not callable is
skipped, the inherited `valueOf` returns the object itself, the inherited
`toString` returns `"[object Object]"`; so an object owning a `toString` that
is not callable cannot be converted. -/
def toPrimitive (h : Host) (v : JSVal) : Except JSError JSVal :=
  match v with
  | JSVal.obj _ =>
    if ((ownProp v "valueOf").any isCallable) || ((ownProp v "toString").any isCallable) then
      h.toPrimitive v
    else if (ownProp v "toString").isSome then
      Except.error (JSError.typeError "Cannot convert object to primitive value")
    else Except.ok (JSVal.str "[object Object]")
  | JSVal.arr _ => h.toPrimitive v
  | JSVal.builtin _ => h.toPrimitive v
  | w => Except.ok w

/-- The abstract operation `ToNumber` on a primitive. -/
def primitiveToNumber (h : Host) : JSVal → JSNum
  | JSVal.null => JSNum.fin 0 0
  | JSVal.bool b => JSNum.fin (if b then 1 else 0) 0
  | JSVal.num n => n
  | JSVal.str s => h.stringToNumber s
  | _ => JSNum.nan

/-- The abstract operation `ToNumber`. -/
def toNumber (h : Host) (v : JSVal) : Except JSError JSNum := do
  let w ← toPrimitive h v
  Except.ok (primitiveToNumber h w)

/-- The function `Math.round` on numbers: the nearest integer, the larger one
on a tie. -/
def mathRound : JSNum → JSNum
  | JSNum.fin m k => JSNum.fin ((2 * m + 2 ^ k) / (2 * 2 ^ k)) 0
  | n => n

/-- The call `Math.max(0, n)` on a number. -/
def mathMax0 : JSNum → JSNum
  | JSNum.nan => JSNum.nan
  | JSNum.inf false => JSNum.inf false
  | JSNum.inf true => JSNum.fin 0 0
  | JSNum.fin m k => if m < 0 then JSNum.fin 0 0 else JSNum.fin m k

/-- The text React shows for a number placed in a cell, `Number::toString`. -/
def numberToString (h : Host) : JSNum → String
  | JSNum.nan => "NaN"
  | JSNum.inf false => "Infinity"
  | JSNum.inf true => "-Infinity"
  | JSNum.fin m k =>
    if (2 : Int) ^ k ∣ m ∧ m.natAbs < 10 ^ 21 * 2 ^ k then
      (if m < 0 then "-" else "") ++ Nat.repr (m.natAbs / 2 ^ k)
    else h.finiteToString m k

/-! ## The table -/

/-- The header cells of the table, in order. -/
def headerColumns : List String :=
  ["Tank", "Location", "Capacity", "pH", "TDS", "Turbidity", "Status",
   "Predicted Due", "Actions"]

/-- The status label `statusText` of a row. -/
def statusText (p sensorError predictionError : JSVal) : Except JSError JSVal := do
  let s ← getProp p "status"
  Except.ok (jsOr s
    (if truthy (jsOr sensorError predictionError) then JSVal.str "Error"
     else JSVal.str "Loading..."))

/-- The class chosen inside the badge's `className` template. -/
def badgeClass (statusText : JSVal) : String :=
  if strictEqStr statusText "Good" then "badge-secondary"
  else if strictEqStr statusText "Moderate" then "badge-warning"
  else if strictEqStr statusText "Poor" then "badge-danger"
  else if strictEqStr statusText "Error" then "badge-danger"
  else "badge-default"

/-- The cell `v ? v.toFixed(2) : "-"` used for pH and turbidity. -/
def fixedCell (h : Host) (v : JSVal) : Except JSError JSVal :=
  if truthy v then callToFixed2 h v else Except.ok (JSVal.str "-")

/-- The cell `v ? Math.round(v) : "-"` used for TDS. -/
def roundCell (h : Host) (v : JSVal) : Except JSError JSVal :=
  if truthy v then do
    let n ← toNumber h v
    Except.ok (JSVal.num (mathRound n))
  else Except.ok (JSVal.str "-")

/-- The value `due = p.predicted_date || "-"`. -/
def dueOf (p : JSVal) : Except JSError JSVal := do
  let d ← getProp p "predicted_date"
  Except.ok (jsOr d (JSVal.str "-"))

/-- The date text of the due cell:
`due !== "-" ? new Date(due).toLocaleDateString() : "-"`.  The constructor
converts its argument to a primitive first, which can throw. -/
def dueDateText (h : Host) (due : JSVal) : Except JSError String :=
  if !strictEqStr due "-" then do
    let w ← toPrimitive h due
    Except.ok (h.localeDate w)
  else Except.ok "-"

/-- The number shown in the `due-text` line, `Math.max(0, days)`, present only
when `typeof days === "number"`. -/
def dueDays (days : JSVal) : Option JSNum :=
  match days with
  | JSVal.num n => some (mathMax0 n)
  | _ => none

/-- One rendered tank row: the values placed in its cells. -/
structure Row where
  key : String
  imgSrc : String
  name : String
  id : String
  location : String
  capacity : String
  ph : JSVal
  tds : JSVal
  turbidity : JSVal
  badge : String
  status : JSVal
  dueDate : String
  days : Option JSNum

/-- The body of the `tanks.map` callback. -/
def tankRow (h : Host) (rs ps sensorError predictionError : JSVal) (tank : Tank) :
    Except JSError Row := do
  let r ← lookupOrEmpty rs tank.id
  let p ← lookupOrEmpty ps tank.id
  let st ← statusText p sensorError predictionError
  let due ← dueOf p
  let days ← getProp p "days_remaining"
  let ph ← getProp r "ph"
  let phCell ← fixedCell h ph
  let tds ← getProp r "tds"
  let tdsCell ← roundCell h tds
  let turbidity ← getProp r "turbidity"
  let turbidityCell ← fixedCell h turbidity
  let dueDate ← dueDateText h due
  Except.ok
    { key := tank.id
      imgSrc := if tank.imageUrl != "" then tank.imageUrl
                else "https://via.placeholder.com/60x40?text=Tank"
      name := tank.name
      id := tank.id
      location := tank.location
      capacity := if tank.capacity != 0 then Nat.repr tank.capacity ++ " L" else "-"
      ph := phCell
      tds := tdsCell
      turbidity := turbidityCell
      badge := "badge " ++ badgeClass st
      status := st
      dueDate := dueDate
      days := dueDays days }

/-- A row of the table body. -/
inductive BodyRow where
  | placeholder (colSpan : Nat) (className : String) (text : String)
  | tank (row : Row)

/-- The method `Array.prototype.map` with a callback that may throw. -/
def mapRows {α β : Type} (f : α → Except JSError β) : List α → Except JSError (List β)
  | [] => Except.ok []
  | a :: as => do
    let b ← f a
    let bs ← mapRows f as
    Except.ok (b :: bs)

/-- The rows of `tbody` from already computed `readings` and `predictions`. -/
def bodyRows (h : Host) (tanks : List Tank) (rs ps sensorError predictionError : JSVal) :
    Except JSError (List BodyRow) := do
  let first : List BodyRow :=
    if tanks.length == 0 then
      [BodyRow.placeholder 9 "empty" "No tanks yet. Use Add Tank to create one."]
    else []
  let rows ← mapRows (tankRow h rs ps sensorError predictionError) tanks
  Except.ok (first ++ rows.map BodyRow.tank)

/-- The rows of `tbody` rendered by `App` for the given state of the two
fetches. -/
def render (h : Host) (tanks : List Tank)
    (sensorData predictionData sensorError predictionError : JSVal) :
    Except JSError (List BodyRow) := do
  let rs ← readings sensorData
  let ps ← predictions predictionData
  bodyRows h tanks rs ps sensorError predictionError

/-- The row of one tank as `App` computes it from the raw payloads. -/
def renderRow (h : Host) (sensorData predictionData sensorError predictionError : JSVal)
    (tank : Tank) : Except JSError Row := do
  let rs ← readings sensorData
  let ps ← predictions predictionData
  tankRow h rs ps sensorError predictionError tank

/-! ## Closed forms used in the proofs -/

/-- The map built by the projection for a truthy payload. -/
def projected (raw : JSVal) (k1 k2 : String) : JSVal :=
  JSVal.obj [("tank1", jsOr (field raw k1) emptyObj), ("tank2", jsOr (field raw k2) emptyObj)]

/-- What the row lookup finds for the tank `id` in the map projected from
`raw`: the copied entry for `tank1` and `tank2`, the inherited member for a
name of `Object.prototype`, the empty object for any other id. -/
def looked (raw : JSVal) (k1 k2 id : String) : JSVal :=
  if id = "tank1" then jsOr (field raw k1) emptyObj
  else if id = "tank2" then jsOr (field raw k2) emptyObj
  else if id ∈ objectPrototypeKeys then JSVal.builtin id
  else emptyObj

/-- The status label of a row whose prediction is an object. -/
def statusOf (p sensorError predictionError : JSVal) : JSVal :=
  jsOr (field p "status")
    (if truthy (jsOr sensorError predictionError) then JSVal.str "Error"
     else JSVal.str "Loading...")

/-- The row record built from a prediction and the four cells that can
throw. -/
def assembleRow (p sensorError predictionError : JSVal) (tank : Tank)
    (phCell tdsCell turbidityCell : JSVal) (dueDate : String) : Row :=
  { key := tank.id
    imgSrc := if tank.imageUrl != "" then tank.imageUrl
              else "https://via.placeholder.com/60x40?text=Tank"
    name := tank.name
    id := tank.id
    location := tank.location
    capacity := if tank.capacity != 0 then Nat.repr tank.capacity ++ " L" else "-"
    ph := phCell
    tds := tdsCell
    turbidity := turbidityCell
    badge := "badge " ++ badgeClass (statusOf p sensorError predictionError)
    status := statusOf p sensorError predictionError
    dueDate := dueDate
    days := dueDays (field p "days_remaining") }

/-- The row computed from a reading and a prediction that are objects. -/
def rowFrom (h : Host) (r p sensorError predictionError : JSVal) (tank : Tank) :
    Except JSError Row := do
  let phCell ← fixedCell h (field r "ph")
  let tdsCell ← roundCell h (field r "tds")
  let turbidityCell ← fixedCell h (field r "turbidity")
  let dueDate ← dueDateText h (jsOr (field p "predicted_date") (JSVal.str "-"))
  Except.ok (assembleRow p sensorError predictionError tank phCell tdsCell turbidityCell dueDate)

/-- The number is below zero. -/
def JSNum.isNeg : JSNum → Bool
  | JSNum.inf true => true
  | JSNum.fin m _ => decide (m < 0)
  | _ => false

/-- The number is zero or above (false for `NaN`). -/
def JSNum.isNonneg : JSNum → Bool
  | JSNum.inf false => true
  | JSNum.fin m _ => decide (0 ≤ m)
  | _ => false

/-- The rational value of the finite number `m / 2 ^ k`. -/
def finValue (m : Int) (k : Nat) : ℚ := (m : ℚ) / 2 ^ k

/-- A row of the body is the placeholder row. -/
def BodyRow.isPlaceholder : BodyRow → Bool
  | BodyRow.placeholder _ _ _ => true
  | BodyRow.tank _ => false

/-- The character is a decimal digit. -/
def isDigit (c : Char) : Bool := decide ('0' ≤ c) && decide (c ≤ '9')

/-- The type `ISO-date-string` that the data model gives to `predicted_date`:
text that begins with a calendar date `YYYY-MM-DD`. -/
def isIsoDateString (s : String) : Bool :=
  match s.data with
  | y1 :: y2 :: y3 :: y4 :: '-' :: m1 :: m2 :: '-' :: d1 :: d2 :: _ =>
    isDigit y1 && isDigit y2 && isDigit y3 && isDigit y4 && isDigit m1 && isDigit m2 &&
      isDigit d1 && isDigit d2
  | _ => false

/-- A field value that is a primitive: converting it never throws. -/
def isPrimitive : JSVal → Bool
  | JSVal.obj _ => false
  | JSVal.arr _ => false
  | JSVal.builtin _ => false
  | _ => true

/-- A field value on which the pH and turbidity cells do not throw: a number,
or a falsy value. -/
def numericOrFalsy (v : JSVal) : Bool := isNumber v || !truthy v

/-- A host for closed examples.  Its date format is that of the `en-US`
locale on the one date the examples use, and text that is not a date is
rejected; the other answers are never consulted by the examples. -/
def strictHost : Host :=
  { finiteToString := fun _ _ => "1e+21"
    localeDate := fun v =>
      match v with
      | JSVal.str "2025-01-31" => "1/31/2025"
      | _ => "Invalid Date"
    stringToNumber := fun _ => JSNum.nan
    toPrimitive := fun _ => Except.ok (JSVal.str "") }

/-! ## Write actions -/

/-- How a `fetch` call ends: the promise is rejected, or it resolves to a
response with an HTTP status code. -/
inductive FetchOutcome where
  | rejected (detail : String)
  | response (status : Nat)
deriving DecidableEq, Repr

/-- The property `res.ok`. -/
def responseOk (status : Nat) : Bool := 200 ≤ status && status ≤ 299

/-- What an action does that the user or the console can observe. -/
inductive Effect where
  | alert (msg : String)
  | consoleError (detail : String)
deriving DecidableEq, Repr

/-- The `try` block of both actions: await the fetch, throw on a response that
is not ok, otherwise alert the success message. -/
def tryBlock (outcome : FetchOutcome) (throwMsg successMsg : String) :
    Except String (List Effect) :=
  match outcome with
  | FetchOutcome.rejected detail => Except.error detail
  | FetchOutcome.response status =>
    if !responseOk status then Except.error throwMsg
    else Except.ok [Effect.alert successMsg]

/-- The `try`/`catch` statement of both actions; the result is what the
function throws to its caller, if anything, and the effects in order. -/
def tryCatch (body : Except String (List Effect)) (failureMsg : String) :
    Except String (List Effect) :=
  match body with
  | Except.ok effects => Except.ok effects
  | Except.error err => Except.ok [Effect.consoleError err, Effect.alert failureMsg]

/-- The action `updateStatus(tank, status)` for a given outcome of its request. -/
def updateStatus (_tank : Tank) (_status : String) (outcome : FetchOutcome) :
    Except String (List Effect) :=
  tryCatch (tryBlock outcome "Failed to update status" "✅ Status updated!")
    "❌ Failed to update status"

/-- The action `sendNotification(tankId)` for a given outcome of its request. -/
def sendNotification (_tankId : String) (outcome : FetchOutcome) :
    Except String (List Effect) :=
  tryCatch (tryBlock outcome "Failed to send notification" "📨 Notification sent!")
    "❌ Failed to send notification"

/-- The request completed with a 2xx response. -/
def FetchOutcome.succeeded : FetchOutcome → Bool
  | FetchOutcome.rejected _ => false
  | FetchOutcome.response status => responseOk status

/-- The error caught by the `catch` block of an action that throws `throwMsg`
on a response that is not ok. -/
def FetchOutcome.caught (throwMsg : String) : FetchOutcome → String
  | FetchOutcome.rejected detail => detail
  | FetchOutcome.response _ => throwMsg

/-- The alerts among the effects. -/
def alerts : List Effect → List String
  | [] => []
  | Effect.alert m :: es => m :: alerts es
  | Effect.consoleError _ :: es => alerts es

/-! ## Polling -/

/-- A response to a poll request of one endpoint: the sequence number of the
request it answers, and the payload. -/
structure PollResponse where
  seq : Nat
  payload : JSVal

/-- The view state of one endpoint: the sequence number of the request whose
response is applied, if any, and the current payload (`data` of `useSWR`). -/
structure EndpointState where
  applied : Option Nat
  data : JSVal

/-- The state of an endpoint before the first response. -/
def EndpointState.initial : EndpointState := { applied := none, data := JSVal.undefined }

/-- Modelled from the spec: the stale-response guard of the polling fetcher,
which is inside the `useSWR` hook imported from the `swr` package and absent
from `App.jsx`.  The specification (4.2) asks to track an increasing request
sequence and to discard a response older than the one currently applied; any
other response replaces the payload wholesale. -/
def applyResponse (s : EndpointState) (r : PollResponse) : EndpointState :=
  match s.applied with
  | none => { applied := some r.seq, data := r.payload }
  | some a => if r.seq < a then s else { applied := some r.seq, data := r.payload }

/-- Modelled from the spec: the responses of one endpoint applied in their
order of arrival. -/
def applyResponses (s : EndpointState) (rs : List PollResponse) : EndpointState :=
  rs.foldl applyResponse s

/-- The applied sequence number of `s` is at most that of `t`. -/
def EndpointState.seqLe (s t : EndpointState) : Prop :=
  match s.applied, t.applied with
  | none, _ => True
  | some _, none => False
  | some a, some b => a ≤ b

end TankDashboard

namespace TankDashboard

/-! ## Basic facts about the value model -/

theorem truthy_emptyObj : truthy emptyObj = true := rfl

theorem field_emptyObj (k : String) : field emptyObj k = JSVal.undefined := rfl

theorem member_of_not_inherited (v : JSVal) {k : String} (hk : k ∉ objectPrototypeKeys) :
    member v k = field v k := by
  unfold member field
  cases ownProp v k <;> simp [hk]

theorem getProp_of_truthy {v : JSVal} (hv : truthy v = true) (k : String) :
    getProp v k = Except.ok (member v k) := by
  cases v <;> simp_all [truthy, getProp]

theorem getProp_data_key {v : JSVal} (hv : truthy v = true) {k : String}
    (hk : k ∉ objectPrototypeKeys) : getProp v k = Except.ok (field v k) := by
  rw [getProp_of_truthy hv, member_of_not_inherited v hk]

theorem truthy_jsOr_emptyObj (v : JSVal) : truthy (jsOr v emptyObj) = true := by
  unfold jsOr
  split
  · assumption
  · rfl

theorem jsOr_of_truthy {a : JSVal} (b : JSVal) (ha : truthy a = true) : jsOr a b = a := by
  simp [jsOr, ha]

theorem jsOr_of_falsy {a : JSVal} (b : JSVal) (ha : truthy a = false) : jsOr a b = b := by
  simp [jsOr, ha]

theorem jsOr_undefined (b : JSVal) : jsOr JSVal.undefined b = b := rfl

theorem field_of_falsy {v : JSVal} (hv : truthy v = false) (k : String) :
    field v k = JSVal.undefined := by
  cases v <;> simp_all [truthy, field, ownProp]

theorem beq_lit_eq_decide (lit id : String) : (lit == id) = decide (id = lit) := by
  by_cases hid : id = lit
  · subst hid
    simp
  · have hne : (lit == id) = false := beq_eq_false_iff_ne.mpr (fun e => hid e.symm)
    rw [hne]
    exact (decide_eq_false hid).symm

theorem readings_eq (sd : JSVal) :
    readings sd = Except.ok (if truthy sd then projected sd "tank1" "tank2" else emptyObj) := by
  unfold readings
  cases hsd : truthy sd
  · simp
  · have k1 : "tank1" ∉ objectPrototypeKeys := by decide
    have k2 : "tank2" ∉ objectPrototypeKeys := by decide
    simp [getProp_data_key hsd k1, getProp_data_key hsd k2, projected, bind, Except.bind]

theorem predictions_eq (pd : JSVal) :
    predictions pd = Except.ok
      (if truthy pd then projected pd "tank1_prediction" "tank2_prediction" else emptyObj) := by
  unfold predictions
  cases hpd : truthy pd
  · simp
  · have k1 : "tank1_prediction" ∉ objectPrototypeKeys := by decide
    have k2 : "tank2_prediction" ∉ objectPrototypeKeys := by decide
    simp [getProp_data_key hpd k1, getProp_data_key hpd k2, projected, bind, Except.bind]

theorem lookupOrEmpty_of_truthy {m : JSVal} (hm : truthy m = true) (k : String) :
    lookupOrEmpty m k = Except.ok (jsOr (member m k) emptyObj) := by
  simp [lookupOrEmpty, getProp_of_truthy hm, bind, Except.bind]

theorem jsOr_member_emptyObj (id : String) :
    jsOr (member emptyObj id) emptyObj =
      if id ∈ objectPrototypeKeys then JSVal.builtin id else emptyObj := by
  unfold member
  have ho : ownProp emptyObj id = none := rfl
  rw [ho]
  by_cases hid : id ∈ objectPrototypeKeys
  · simp only [hid, if_true]
    rfl
  · simp only [hid, if_false]
    rfl

theorem jsOr_member_projected (raw : JSVal) (k1 k2 id : String) :
    jsOr (member (projected raw k1 k2) id) emptyObj = looked raw k1 k2 id := by
  have e1 : (("tank1" : String) == id) = decide (id = "tank1") := beq_lit_eq_decide "tank1" id
  have e2 : (("tank2" : String) == id) = decide (id = "tank2") := beq_lit_eq_decide "tank2" id
  unfold member projected looked ownProp
  simp only [List.find?, e1, e2]
  by_cases h1 : id = "tank1"
  · simp [h1, jsOr_of_truthy _ (truthy_jsOr_emptyObj _)]
  · by_cases h2 : id = "tank2"
    · simp [h1, h2, jsOr_of_truthy _ (truthy_jsOr_emptyObj _)]
    · by_cases hid : id ∈ objectPrototypeKeys
      · simp only [h1, h2, hid, decide_False, Option.map_none', if_true, if_false]
        rfl
      · simp only [h1, h2, hid, decide_False, Option.map_none', if_false]
        rfl

theorem looked_of_falsy {raw : JSVal} (hraw : truthy raw = false) (k1 k2 id : String) :
    looked raw k1 k2 id = if id ∈ objectPrototypeKeys then JSVal.builtin id else emptyObj := by
  have n1 : "tank1" ∉ objectPrototypeKeys := by decide
  have n2 : "tank2" ∉ objectPrototypeKeys := by decide
  unfold looked
  rw [field_of_falsy hraw, field_of_falsy hraw, jsOr_undefined]
  by_cases h1 : id = "tank1"
  · subst h1
    simp [n1]
  · by_cases h2 : id = "tank2"
    · subst h2
      simp [n2]
    · simp [h1, h2]

theorem jsOr_member_projection (raw : JSVal) (k1 k2 id : String) :
    jsOr (member (if truthy raw then projected raw k1 k2 else emptyObj) id) emptyObj =
      looked raw k1 k2 id := by
  cases hraw : truthy raw
  · simp only [Bool.false_eq_true, if_false]
    rw [jsOr_member_emptyObj, looked_of_falsy hraw]
  · simp only [if_true]
    exact jsOr_member_projected raw k1 k2 id

theorem truthy_projection (raw : JSVal) (k1 k2 : String) :
    truthy (if truthy raw then projected raw k1 k2 else emptyObj) = true := by
  split <;> rfl

theorem truthy_looked (raw : JSVal) (k1 k2 id : String) : truthy (looked raw k1 k2 id) = true := by
  rw [← jsOr_member_projection]
  exact truthy_jsOr_emptyObj _

theorem rowReading_eq (sd : JSVal) (tank : Tank) :
    rowReading sd tank = Except.ok (looked sd "tank1" "tank2" tank.id) := by
  unfold rowReading
  rw [readings_eq]
  simp only [bind, Except.bind]
  rw [lookupOrEmpty_of_truthy (truthy_projection _ _ _), jsOr_member_projection]

theorem rowPrediction_eq (pd : JSVal) (tank : Tank) :
    rowPrediction pd tank =
      Except.ok (looked pd "tank1_prediction" "tank2_prediction" tank.id) := by
  unfold rowPrediction
  rw [predictions_eq]
  simp only [bind, Except.bind]
  rw [lookupOrEmpty_of_truthy (truthy_projection _ _ _), jsOr_member_projection]

theorem statusText_eq {p : JSVal} (hp : truthy p = true) (se pe : JSVal) :
    statusText p se pe = Except.ok (statusOf p se pe) := by
  have hk : "status" ∉ objectPrototypeKeys := by decide
  simp [statusText, statusOf, getProp_data_key hp hk, bind, Except.bind]

theorem dueOf_eq {p : JSVal} (hp : truthy p = true) :
    dueOf p = Except.ok (jsOr (field p "predicted_date") (JSVal.str "-")) := by
  have hk : "predicted_date" ∉ objectPrototypeKeys := by decide
  simp [dueOf, getProp_data_key hp hk, bind, Except.bind]

theorem tankRow_eq (h : Host) {rs ps : JSVal} (hrs : truthy rs = true) (hps : truthy ps = true)
    (se pe : JSVal) (tank : Tank) :
    tankRow h rs ps se pe tank =
      rowFrom h (jsOr (member rs tank.id) emptyObj) (jsOr (member ps tank.id) emptyObj)
        se pe tank := by
  have hr := truthy_jsOr_emptyObj (member rs tank.id)
  have hp := truthy_jsOr_emptyObj (member ps tank.id)
  have k1 : "days_remaining" ∉ objectPrototypeKeys := by decide
  have k2 : "ph" ∉ objectPrototypeKeys := by decide
  have k3 : "tds" ∉ objectPrototypeKeys := by decide
  have k4 : "turbidity" ∉ objectPrototypeKeys := by decide
  unfold tankRow rowFrom
  simp only [lookupOrEmpty_of_truthy hrs, lookupOrEmpty_of_truthy hps, statusText_eq hp,
    dueOf_eq hp, getProp_data_key hp k1, getProp_data_key hr k2, getProp_data_key hr k3,
    getProp_data_key hr k4, bind, Except.bind]
  rfl

theorem renderRow_eq (h : Host) (sd pd se pe : JSVal) (tank : Tank) :
    renderRow h sd pd se pe tank =
      rowFrom h (looked sd "tank1" "tank2" tank.id)
        (looked pd "tank1_prediction" "tank2_prediction" tank.id) se pe tank := by
  unfold renderRow
  rw [readings_eq, predictions_eq]
  simp only [bind, Except.bind]
  rw [tankRow_eq h (truthy_projection _ _ _) (truthy_projection _ _ _),
    jsOr_member_projection, jsOr_member_projection]

/-! ## C1, C2: the projection -/

theorem looked_of_missing {raw : JSVal} {k1 k2 id : String}
    (hid : id ∉ objectPrototypeKeys)
    (h1 : id = "tank1" → field raw k1 = JSVal.undefined)
    (h2 : id = "tank2" → field raw k2 = JSVal.undefined) :
    looked raw k1 k2 id = emptyObj := by
  unfold looked
  split
  · next e => rw [h1 e, jsOr_undefined]
  · split
    · next e => rw [h2 e, jsOr_undefined]
    · simp [hid]

/-- The two projections are computed without throwing for all raw payloads,
`undefined` included. -/
theorem projection_never_throws (sd pd : JSVal) :
    (∃ rs, readings sd = Except.ok rs) ∧ (∃ ps, predictions pd = Except.ok ps) :=
  ⟨⟨_, readings_eq sd⟩, ⟨_, predictions_eq pd⟩⟩

/-- A tank whose id is missing from the raw readings, and is not the name of an
inherited member, gets the empty object as its reading. -/
theorem missing_reading_is_empty (sd : JSVal) (tank : Tank)
    (hid : tank.id ∉ objectPrototypeKeys) (hmiss : field sd tank.id = JSVal.undefined) :
    rowReading sd tank = Except.ok emptyObj := by
  rw [rowReading_eq, looked_of_missing hid (fun e => by rw [← e]; exact hmiss)
    (fun e => by rw [← e]; exact hmiss)]

/-- A tank whose key `id + "_prediction"` is missing from the raw predictions,
and whose id is not the name of an inherited member, gets the empty object as
its prediction. -/
theorem missing_prediction_is_empty (pd : JSVal) (tank : Tank)
    (hid : tank.id ∉ objectPrototypeKeys)
    (hmiss : field pd (tank.id ++ "_prediction") = JSVal.undefined) :
    rowPrediction pd tank = Except.ok emptyObj := by
  rw [rowPrediction_eq, looked_of_missing hid
    (fun e => by
      have hk : tank.id ++ "_prediction" = "tank1_prediction" := by rw [e]; decide
      rw [← hk]; exact hmiss)
    (fun e => by
      have hk : tank.id ++ "_prediction" = "tank2_prediction" := by rw [e]; decide
      rw [← hk]; exact hmiss)]

/-- A tank with empty reading and empty prediction renders, with every data
cell at its placeholder. -/
theorem rowFrom_emptyObj (h : Host) (se pe : JSVal) (tank : Tank) :
    rowFrom h emptyObj emptyObj se pe tank =
      Except.ok (assembleRow emptyObj se pe tank (JSVal.str "-") (JSVal.str "-")
        (JSVal.str "-") "-") := rfl

/-- C1 fails on the code: before the first prediction fetch the key
`tank1_prediction` is missing and the prediction of `tank1` is the empty
object, as claimed, but with the string `"7.2"` as the pH of `tank1` computing
the row throws at `r.ph.toFixed(2)`. -/
theorem C1_row_throws_with_prediction_missing :
    field JSVal.undefined ("tank1" ++ "_prediction") = JSVal.undefined ∧
    rowPrediction JSVal.undefined ⟨"tank1", "Main Building", "Rooftop", 1500, "/tank1.jpg"⟩
      = Except.ok emptyObj ∧
    renderRow strictHost (JSVal.obj [("tank1", JSVal.obj [("ph", JSVal.str "7.2")])])
      JSVal.undefined JSVal.undefined JSVal.undefined
      ⟨"tank1", "Main Building", "Rooftop", 1500, "/tank1.jpg"⟩
      = Except.error (JSError.typeError "toFixed is not a function") :=
  ⟨rfl, rfl, rfl⟩

/-- C2 as stated fails: the falsy reading `0` of `tank1` is replaced by the
empty object although it is neither `null` nor `undefined`; and a tank `tank3`
present in the payload still gets the empty object. -/
theorem C2_counterexample :
    rowReading (JSVal.obj [("tank1", JSVal.num (JSNum.fin 0 0))])
        ⟨"tank1", "Main Building", "Rooftop", 1500, "/tank1.jpg"⟩
      ≠ Except.ok (specReading (JSVal.obj [("tank1", JSVal.num (JSNum.fin 0 0))]) "tank1") ∧
    rowReading (JSVal.obj [("tank3", JSVal.obj [("ph", JSVal.num (JSNum.fin 7 0))])])
        ⟨"tank3", "Garden", "Yard", 500, ""⟩
      ≠ Except.ok (specReading
          (JSVal.obj [("tank3", JSVal.obj [("ph", JSVal.num (JSNum.fin 7 0))])]) "tank3") := by
  refine ⟨?_, ?_⟩
  · have e : rowReading (JSVal.obj [("tank1", JSVal.num (JSNum.fin 0 0))])
        ⟨"tank1", "Main Building", "Rooftop", 1500, "/tank1.jpg"⟩ = Except.ok (JSVal.obj []) := rfl
    have e2 : specReading (JSVal.obj [("tank1", JSVal.num (JSNum.fin 0 0))]) "tank1"
        = JSVal.num (JSNum.fin 0 0) := rfl
    rw [e, e2]
    intro hEq
    have h2 := Except.ok.inj hEq
    cases h2
  · have e : rowReading (JSVal.obj [("tank3", JSVal.obj [("ph", JSVal.num (JSNum.fin 7 0))])])
        ⟨"tank3", "Garden", "Yard", 500, ""⟩ = Except.ok (JSVal.obj []) := by
      rw [rowReading_eq]
      rfl
    have e2 : specReading (JSVal.obj [("tank3", JSVal.obj [("ph", JSVal.num (JSNum.fin 7 0))])])
        "tank3" = JSVal.obj [("ph", JSVal.num (JSNum.fin 7 0))] := rfl
    rw [e, e2]
    intro hEq
    have h2 := Except.ok.inj hEq
    injection h2 with h3
    cases h3

/-- C2, amended: the registry holds the ids `tank1` and `tank2`; for these ids
and every pair of raw payloads the projected reading is `rawReadings[id]` when
that value is truthy and `{}` otherwise, and the projected prediction is
`rawPredictions[id + "_prediction"]` when that value is truthy and `{}`
otherwise; for any other id the projected reading and prediction do not depend
on the payloads. -/
theorem C2_projection_of_tank1_tank2_defaults_falsy (sd pd : JSVal) (tank : Tank) :
    (∀ t ∈ initialTanks, t.id = "tank1" ∨ t.id = "tank2") ∧
    (tank.id = "tank1" ∨ tank.id = "tank2" →
      rowReading sd tank = Except.ok (jsOr (field sd tank.id) emptyObj) ∧
      rowPrediction pd tank = Except.ok (jsOr (field pd (tank.id ++ "_prediction")) emptyObj)) ∧
    (tank.id ≠ "tank1" → tank.id ≠ "tank2" → ∀ sd2 pd2 : JSVal,
      rowReading sd tank = rowReading sd2 tank ∧
      rowPrediction pd tank = rowPrediction pd2 tank) := by
  refine ⟨by decide, ?_, ?_⟩
  · intro hid
    rw [rowReading_eq, rowPrediction_eq]
    unfold looked
    rcases hid with h1 | h2
    · have hk : tank.id ++ "_prediction" = "tank1_prediction" := by rw [h1]; decide
      rw [hk, h1]
      exact ⟨rfl, rfl⟩
    · have hk : tank.id ++ "_prediction" = "tank2_prediction" := by rw [h2]; decide
      rw [hk, h2]
      exact ⟨rfl, rfl⟩
  · intro h1 h2 sd2 pd2
    simp [rowReading_eq, rowPrediction_eq, looked, h1, h2]

/-- C2 at work on `tank2` of the registry: its reading is copied, its missing
prediction is the empty object. -/
theorem C2_projection_of_tank1_tank2_defaults_falsy_witness :
    ("tank2" = "tank1" ∨ "tank2" = "tank2") ∧
    rowReading (JSVal.obj [("tank2", JSVal.obj [("tds", JSVal.num (JSNum.fin 300 0))])])
        ⟨"tank2", "Annex Building", "Underground", 1900, "/tank2.jpg"⟩
      = Except.ok (JSVal.obj [("tds", JSVal.num (JSNum.fin 300 0))]) ∧
    rowPrediction JSVal.undefined ⟨"tank2", "Annex Building", "Underground", 1900, "/tank2.jpg"⟩
      = Except.ok emptyObj :=
  ⟨Or.inr rfl,
    ((C2_projection_of_tank1_tank2_defaults_falsy
      (JSVal.obj [("tank2", JSVal.obj [("tds", JSVal.num (JSNum.fin 300 0))])]) JSVal.undefined
      ⟨"tank2", "Annex Building", "Underground", 1900, "/tank2.jpg"⟩).2.1 (Or.inr rfl)).1,
    ((C2_projection_of_tank1_tank2_defaults_falsy
      (JSVal.obj [("tank2", JSVal.obj [("tds", JSVal.num (JSNum.fin 300 0))])]) JSVal.undefined
      ⟨"tank2", "Annex Building", "Underground", 1900, "/tank2.jpg"⟩).2.1 (Or.inr rfl)).2⟩

/-! ## C3: the status label -/

theorem truthy_jsOr (a b : JSVal) : truthy (jsOr a b) = (truthy a || truthy b) := by
  unfold jsOr
  cases ha : truthy a <;> simp [ha]

/-- C3 as stated fails on the last literal: without a status and without an
error the label is `"Loading..."`, three full stops, not the text with the
single ellipsis character. -/
theorem C3_counterexample :
    statusText emptyObj JSVal.undefined JSVal.undefined ≠ Except.ok (JSVal.str "Loading…") := by
  have e : statusText emptyObj JSVal.undefined JSVal.undefined
      = Except.ok (JSVal.str "Loading...") := rfl
  rw [e]
  intro hEq
  have h2 := Except.ok.inj hEq
  injection h2 with h3
  exact absurd h3 (by decide)

/-- C3, amended: for every prediction object and every pair of error flags the
label is `p.status` when that value is truthy (a non-empty string, for a
string); otherwise `"Error"` when at least one flag is truthy; otherwise
`"Loading..."` written with three full stops. -/
theorem C3_status_label_precedence (p se pe : JSVal) (hp : truthy p = true) :
    statusText p se pe = Except.ok
      (if truthy (field p "status") then field p "status"
       else if truthy se || truthy pe then JSVal.str "Error"
       else JSVal.str "Loading...") := by
  rw [statusText_eq hp]
  unfold statusOf
  rw [truthy_jsOr]
  cases hs : truthy (field p "status")
  · rw [jsOr_of_falsy _ hs]
    simp
  · rw [jsOr_of_truthy _ hs]
    simp

/-- C3 at work: no status and a failed sensor fetch give `"Error"`. -/
theorem C3_status_label_precedence_witness :
    truthy emptyObj = true ∧
    statusText emptyObj (JSVal.str "TypeError: Failed to fetch") JSVal.undefined
      = Except.ok (JSVal.str "Error") :=
  ⟨rfl, C3_status_label_precedence emptyObj (JSVal.str "TypeError: Failed to fetch")
    JSVal.undefined rfl⟩

/-! ## C4: the number cells -/

theorem nat_round_bounds (a k : Nat) :
    100 * ((a : ℚ) / 2 ^ k) - 1 / 2 < (((a * 200 + 2 ^ k) / (2 * 2 ^ k) : Nat) : ℚ) ∧
    (((a * 200 + 2 ^ k) / (2 * 2 ^ k) : Nat) : ℚ) ≤ 100 * ((a : ℚ) / 2 ^ k) + 1 / 2 := by
  have hP : (0 : ℚ) < 2 ^ k := by positivity
  have hD : 0 < 2 * 2 ^ k := by positivity
  have h1 : 2 * 2 ^ k * ((a * 200 + 2 ^ k) / (2 * 2 ^ k)) ≤ a * 200 + 2 ^ k :=
    Nat.mul_div_le _ _
  have h2 : a * 200 + 2 ^ k < 2 * 2 ^ k * ((a * 200 + 2 ^ k) / (2 * 2 ^ k) + 1) :=
    Nat.lt_mul_div_succ _ hD
  generalize (a * 200 + 2 ^ k) / (2 * 2 ^ k) = n at h1 h2 ⊢
  have q1 : (2 : ℚ) * 2 ^ k * n ≤ a * 200 + 2 ^ k := by exact_mod_cast h1
  have q2 : (a : ℚ) * 200 + 2 ^ k < 2 * 2 ^ k * (n + 1) := by exact_mod_cast h2
  constructor
  · rw [sub_lt_iff_lt_add, mul_div_assoc', div_lt_iff₀ hP]
    nlinarith
  · rw [← sub_le_iff_le_add, mul_div_assoc', le_div_iff₀ hP]
    nlinarith

theorem int_round_bounds (m : Int) (k : Nat) :
    (m : ℚ) / 2 ^ k - 1 / 2 < (((2 * m + 2 ^ k) / (2 * 2 ^ k) : Int) : ℚ) ∧
    (((2 * m + 2 ^ k) / (2 * 2 ^ k) : Int) : ℚ) ≤ (m : ℚ) / 2 ^ k + 1 / 2 := by
  have hP : (0 : ℚ) < 2 ^ k := by positivity
  have hD : (0 : Int) < 2 * 2 ^ k := by positivity
  have h1 : (2 * m + 2 ^ k) / (2 * 2 ^ k) * (2 * 2 ^ k) ≤ 2 * m + 2 ^ k :=
    Int.ediv_mul_le _ (ne_of_gt hD)
  have h2 : 2 * m + 2 ^ k < ((2 * m + 2 ^ k) / (2 * 2 ^ k) + 1) * (2 * 2 ^ k) :=
    Int.lt_ediv_add_one_mul_self _ hD
  generalize (2 * m + 2 ^ k) / (2 * 2 ^ k) = z at h1 h2 ⊢
  have q1 : (z : ℚ) * (2 * 2 ^ k) ≤ 2 * m + 2 ^ k := by exact_mod_cast h1
  have q2 : (2 : ℚ) * m + 2 ^ k < (z + 1) * (2 * 2 ^ k) := by exact_mod_cast h2
  constructor
  · rw [sub_lt_iff_lt_add, div_lt_iff₀ hP]
    nlinarith
  · rw [← sub_le_iff_le_add, le_div_iff₀ hP]
    nlinarith

theorem abs_finValue (m : Int) (k : Nat) : |finValue m k| = (m.natAbs : ℚ) / 2 ^ k := by
  unfold finValue
  rw [abs_div, abs_of_pos (by positivity : (0 : ℚ) < 2 ^ k), Nat.cast_natAbs, Int.cast_abs]

theorem nearestHundredth_bounds (m : Int) (k : Nat) :
    100 * |finValue m k| - 1 / 2 < (nearestHundredth m k : ℚ) ∧
    (nearestHundredth m k : ℚ) ≤ 100 * |finValue m k| + 1 / 2 := by
  rw [abs_finValue]
  exact nat_round_bounds m.natAbs k

theorem hundredths_length (n : Nat) : 3 ≤ (hundredths n).length := by
  unfold hundredths
  simp [String.length_append]
  have hdot : (".": String).length = 1 := rfl
  omega

theorem signed_hundredths_ne_dash (sign : String) (n : Nat) : sign ++ hundredths n ≠ "-" := by
  intro hEq
  have hl := congrArg String.length hEq
  rw [String.length_append] at hl
  have h3 := hundredths_length n
  have h1 : ("-" : String).length = 1 := rfl
  omega

theorem digitChar_ne_y (d : Nat) : digitChar d ≠ 'y' := by
  unfold digitChar
  have hlt : d % 10 < 10 := Nat.mod_lt _ (by decide)
  generalize d % 10 = r at hlt
  interval_cases r <;> decide

theorem signed_hundredths_ne_infinity (sign : String) (n : Nat) :
    sign ++ hundredths n ≠ "Infinity" := by
  intro hEq
  have hd := congrArg (fun s => s.data.getLast?) hEq
  simp [hundredths, String.data_append] at hd
  exact digitChar_ne_y n hd

theorem truthy_fin (m : Int) (k : Nat) : truthy (JSVal.num (JSNum.fin m k)) = decide (m ≠ 0) := by
  by_cases hm : m = 0 <;> simp [truthy, JSNum.isZero, hm]

theorem hundredths_digits (n : Nat) (sign : String) :
    ∃ q d1 d2 : Nat, d1 < 10 ∧ d2 < 10 ∧ n = 100 * q + 10 * d1 + d2 ∧
      sign ++ hundredths n = sign ++ Nat.repr q ++ "." ++
        String.mk [Char.ofNat (48 + d1), Char.ofNat (48 + d2)] := by
  refine ⟨n / 100, n / 10 % 10, n % 10, Nat.mod_lt _ (by decide), Nat.mod_lt _ (by decide),
    by omega, ?_⟩
  unfold hundredths digitChar
  simp only [String.append_assoc]

theorem two_decimals_ne_infinity (pre : String) (d1 d2 : Nat) (hd : d2 < 10) :
    pre ++ "." ++ String.mk [Char.ofNat (48 + d1), Char.ofNat (48 + d2)] ≠ "Infinity" := by
  intro hEq
  have hl := congrArg (fun s => s.data.getLast?) hEq
  simp [String.data_append] at hl
  have hy : digitChar d2 ≠ 'y' := digitChar_ne_y d2
  unfold digitChar at hy
  rw [Nat.mod_eq_of_lt hd] at hy
  exact hy hl

theorem toNumber_num (h : Host) (n : JSNum) : toNumber h (JSVal.num n) = Except.ok n := rfl

/-- C4 as stated fails outside the finite range: `Infinity` (what `res.json()`
yields for `1e999`) is a non-zero number, yet its pH cell shows `"Infinity"`,
which is no number written with two decimals. -/
theorem C4_counterexample :
    fixedCell strictHost (JSVal.num (JSNum.inf false)) = Except.ok (JSVal.str "Infinity") ∧
    isNumber (JSVal.num (JSNum.inf false)) = true ∧ (JSNum.inf false).isZero = false ∧
    ∀ (pre : String) (d1 d2 : Nat), d2 < 10 →
      pre ++ "." ++ String.mk [Char.ofNat (48 + d1), Char.ofNat (48 + d2)] ≠ "Infinity" :=
  ⟨rfl, rfl, rfl, two_decimals_ne_infinity⟩

/-- C4, amended: for every value `v` of a reading field.  When `v` is missing
or otherwise falsy (`undefined`, `null`, `0`, `NaN`) the pH/turbidity cell and
the TDS cell show `"-"`, and the TDS cell shows `"-"` only then.  When `v` is a
finite non-zero number `x = m / 2 ^ k`, the TDS cell shows the integer nearest to
`x` (the larger one on a tie); when moreover `|x| < 10 ^ 21` the pH/turbidity
cell shows the sign of `x`, the decimal digits of an integer part, a point and
exactly two decimal digits, which together are `|x|` rounded to the nearest
hundredth (the larger one on a tie), and that text is never `"-"`; when
`|x| >= 10 ^ 21` the pH/turbidity cell shows the ordinary string form of the
number.  When `v` is plus or minus `Infinity` the pH/turbidity cell shows
`"Infinity"` or `"-Infinity"` and the TDS cell shows the infinity itself. -/
theorem C4_number_cells (h : Host) (v : JSVal) :
    (truthy v = false →
      fixedCell h v = Except.ok (JSVal.str "-") ∧ roundCell h v = Except.ok (JSVal.str "-")) ∧
    (roundCell h v = Except.ok (JSVal.str "-") → truthy v = false) ∧
    (∀ (m : Int) (k : Nat), v = JSVal.num (JSNum.fin m k) → m ≠ 0 →
      (∃ z : Int, roundCell h v = Except.ok (JSVal.num (JSNum.fin z 0)) ∧
        finValue m k - 1 / 2 < (z : ℚ) ∧ (z : ℚ) ≤ finValue m k + 1 / 2) ∧
      (m.natAbs < 10 ^ 21 * 2 ^ k →
        ∃ q d1 d2 : Nat, d1 < 10 ∧ d2 < 10 ∧
          fixedCell h v = Except.ok (JSVal.str
            ((if m < 0 then "-" else "") ++ Nat.repr q ++ "." ++
              String.mk [Char.ofNat (48 + d1), Char.ofNat (48 + d2)])) ∧
          100 * |finValue m k| - 1 / 2 < ((100 * q + 10 * d1 + d2 : Nat) : ℚ) ∧
          ((100 * q + 10 * d1 + d2 : Nat) : ℚ) ≤ 100 * |finValue m k| + 1 / 2 ∧
          fixedCell h v ≠ Except.ok (JSVal.str "-")) ∧
      (10 ^ 21 * 2 ^ k ≤ m.natAbs →
        fixedCell h v = Except.ok (JSVal.str (numberToString h (JSNum.fin m k))))) ∧
    (∀ neg : Bool, v = JSVal.num (JSNum.inf neg) →
      fixedCell h v = Except.ok (JSVal.str (if neg then "-Infinity" else "Infinity")) ∧
      roundCell h v = Except.ok (JSVal.num (JSNum.inf neg))) := by
  refine ⟨?_, ?_, ?_, ?_⟩
  · intro hv
    simp [fixedCell, roundCell, hv]
  · intro hr
    cases hv : truthy v
    · rfl
    · unfold roundCell at hr
      rw [hv] at hr
      simp only [if_true, bind, Except.bind] at hr
      cases hn : toNumber h v with
      | error e => rw [hn] at hr; cases hr
      | ok n =>
        rw [hn] at hr
        have h2 := Except.ok.inj hr
        cases h2
  · intro m k hvm hm
    subst hvm
    have ht : truthy (JSVal.num (JSNum.fin m k)) = true := by simp [truthy_fin, hm]
    refine ⟨⟨(2 * m + 2 ^ k) / (2 * 2 ^ k), ?_, int_round_bounds m k⟩, ?_, ?_⟩
    · simp [roundCell, ht, toNumber_num, mathRound, bind, Except.bind]
    · intro hlt
      have hcell : fixedCell h (JSVal.num (JSNum.fin m k)) = Except.ok (JSVal.str
          ((if m < 0 then "-" else "") ++ hundredths (nearestHundredth m k))) := by
        simp only [fixedCell, ht, if_true, callToFixed2, toFixed2, if_neg (Nat.not_le.mpr hlt)]
      obtain ⟨q, d1, d2, hd1, hd2, hn, htext⟩ :=
        hundredths_digits (nearestHundredth m k) (if m < 0 then "-" else "")
      refine ⟨q, d1, d2, hd1, hd2, ?_, ?_, ?_, ?_⟩
      · rw [hcell, htext]
      · rw [← hn]
        exact (nearestHundredth_bounds m k).1
      · rw [← hn]
        exact (nearestHundredth_bounds m k).2
      · rw [hcell]
        intro hEq
        have h2 := Except.ok.inj hEq
        injection h2 with h3
        exact signed_hundredths_ne_dash _ _ h3
    · intro hge
      have hnot : ¬ ((2 : Int) ^ k ∣ m ∧ m.natAbs < 10 ^ 21 * 2 ^ k) :=
        fun hc => absurd hge (Nat.not_le.mpr hc.2)
      simp only [fixedCell, ht, if_true, callToFixed2, toFixed2, if_pos hge, numberToString,
        if_neg hnot]
  · intro neg hv
    subst hv
    cases neg <;> exact ⟨rfl, rfl⟩

/-- C4 at work on the examples of the specification: the double nearest to
`7.456` shows `"7.46"`, the double nearest to `512.6` shows the number `513`,
and `0` shows `"-"`. -/
theorem C4_number_cells_witness :
    (∃ q d1 d2 : Nat, d1 < 10 ∧ d2 < 10 ∧
      fixedCell strictHost (JSVal.num (JSNum.fin 8394709705418605 50)) = Except.ok (JSVal.str
        ((if (8394709705418605 : Int) < 0 then "-" else "") ++ Nat.repr q ++ "." ++
          String.mk [Char.ofNat (48 + d1), Char.ofNat (48 + d2)])) ∧
      100 * |finValue 8394709705418605 50| - 1 / 2 < ((100 * q + 10 * d1 + d2 : Nat) : ℚ) ∧
      ((100 * q + 10 * d1 + d2 : Nat) : ℚ) ≤ 100 * |finValue 8394709705418605 50| + 1 / 2 ∧
      fixedCell strictHost (JSVal.num (JSNum.fin 8394709705418605 50))
        ≠ Except.ok (JSVal.str "-")) ∧
    fixedCell strictHost (JSVal.num (JSNum.fin 8394709705418605 50))
      = Except.ok (JSVal.str "7.46") ∧
    (∃ z : Int, roundCell strictHost (JSVal.num (JSNum.fin 4508877283183821 43))
        = Except.ok (JSVal.num (JSNum.fin z 0)) ∧
      finValue 4508877283183821 43 - 1 / 2 < (z : ℚ) ∧
      (z : ℚ) ≤ finValue 4508877283183821 43 + 1 / 2) ∧
    roundCell strictHost (JSVal.num (JSNum.fin 4508877283183821 43))
      = Except.ok (JSVal.num (JSNum.fin 513 0)) ∧
    numberToString strictHost (JSNum.fin 513 0) = "513" ∧
    fixedCell strictHost (JSVal.num (JSNum.fin 0 0)) = Except.ok (JSVal.str "-") :=
  ⟨((C4_number_cells strictHost (JSVal.num (JSNum.fin 8394709705418605 50))).2.2.1
      8394709705418605 50 rfl (by decide)).2.1 (by decide),
    rfl,
    ((C4_number_cells strictHost (JSVal.num (JSNum.fin 4508877283183821 43))).2.2.1
      4508877283183821 43 rfl (by decide)).1,
    rfl, by decide,
    ((C4_number_cells strictHost (JSVal.num (JSNum.fin 0 0))).1 rfl).1⟩

/-! ## C5: the write actions -/

theorem tryCatch_tryBlock (outcome : FetchOutcome) (throwMsg successMsg failureMsg : String) :
    tryCatch (tryBlock outcome throwMsg successMsg) failureMsg = Except.ok
      (if outcome.succeeded then [Effect.alert successMsg]
       else [Effect.consoleError (outcome.caught throwMsg), Effect.alert failureMsg]) := by
  cases outcome with
  | rejected detail => rfl
  | response status =>
    cases hok : responseOk status <;>
      simp [tryBlock, tryCatch, FetchOutcome.succeeded, FetchOutcome.caught, hok]

/-- C5: for every outcome of the request, each of the two actions returns
normally and shows exactly one alert; the alert is the success message exactly
when the request completed with a 2xx response, and otherwise it is one fixed
failure message, the same for a rejected request and a response that is not ok,
while the error detail goes to `console.error` only. -/
theorem C5_actions_acknowledge_exactly_once (tank : Tank) (status tankId : String)
    (outcome : FetchOutcome) :
    (∃ effects, updateStatus tank status outcome = Except.ok effects ∧
      effects = (if outcome.succeeded then [Effect.alert "✅ Status updated!"]
        else [Effect.consoleError (outcome.caught "Failed to update status"),
              Effect.alert "❌ Failed to update status"]) ∧
      alerts effects = [if outcome.succeeded then "✅ Status updated!"
                        else "❌ Failed to update status"] ∧
      (alerts effects = ["✅ Status updated!"] ↔ outcome.succeeded = true)) ∧
    (∃ effects, sendNotification tankId outcome = Except.ok effects ∧
      effects = (if outcome.succeeded then [Effect.alert "📨 Notification sent!"]
        else [Effect.consoleError (outcome.caught "Failed to send notification"),
              Effect.alert "❌ Failed to send notification"]) ∧
      alerts effects = [if outcome.succeeded then "📨 Notification sent!"
                        else "❌ Failed to send notification"] ∧
      (alerts effects = ["📨 Notification sent!"] ↔ outcome.succeeded = true)) := by
  constructor
  · refine ⟨_, tryCatch_tryBlock outcome _ _ _, rfl, ?_, ?_⟩ <;>
      cases hs : outcome.succeeded <;> simp [alerts]
  · refine ⟨_, tryCatch_tryBlock outcome _ _ _, rfl, ?_, ?_⟩ <;>
      cases hs : outcome.succeeded <;> simp [alerts]

/-! ## C6, C7: the table body -/

theorem render_eq (h : Host) (tanks : List Tank) (sd pd se pe : JSVal) :
    render h tanks sd pd se pe =
      bodyRows h tanks (if truthy sd then projected sd "tank1" "tank2" else emptyObj)
        (if truthy pd then projected pd "tank1_prediction" "tank2_prediction" else emptyObj)
        se pe := by
  unfold render
  rw [readings_eq, predictions_eq]
  rfl

theorem tankRow_projection_eq (h : Host) (sd pd se pe : JSVal) (tank : Tank) :
    tankRow h (if truthy sd then projected sd "tank1" "tank2" else emptyObj)
      (if truthy pd then projected pd "tank1_prediction" "tank2_prediction" else emptyObj)
      se pe tank = renderRow h sd pd se pe tank := by
  unfold renderRow
  rw [readings_eq, predictions_eq]
  rfl

theorem mapRows_forall₂ {α β : Type} (f : α → Except JSError β) :
    ∀ (as : List α) (bs : List β), mapRows f as = Except.ok bs →
      List.Forall₂ (fun a b => f a = Except.ok b) as bs := by
  intro as
  induction as with
  | nil =>
    intro bs hEq
    have e := Except.ok.inj hEq
    subst e
    exact List.Forall₂.nil
  | cons a as ih =>
    intro bs hEq
    unfold mapRows at hEq
    cases hfa : f a with
    | error e => simp [hfa, bind, Except.bind] at hEq
    | ok b =>
      cases hrest : mapRows f as with
      | error e => simp [hfa, hrest, bind, Except.bind] at hEq
      | ok bs0 =>
        simp [hfa, hrest, bind, Except.bind] at hEq
        subst hEq
        exact List.Forall₂.cons hfa (ih bs0 hrest)

theorem mapRows_total {α β : Type} (f : α → Except JSError β) :
    ∀ (as : List α), (∀ a ∈ as, ∃ b, f a = Except.ok b) → ∃ bs, mapRows f as = Except.ok bs := by
  intro as
  induction as with
  | nil => intro _; exact ⟨[], rfl⟩
  | cons a as ih =>
    intro hall
    obtain ⟨b, hb⟩ := hall a (List.mem_cons_self a as)
    obtain ⟨bs, hbs⟩ := ih (fun x hx => hall x (List.mem_cons_of_mem a hx))
    exact ⟨b :: bs, by simp [mapRows, hb, hbs, bind, Except.bind]⟩

theorem bodyRows_nil (h : Host) (rs ps se pe : JSVal) :
    bodyRows h [] rs ps se pe =
      Except.ok [BodyRow.placeholder 9 "empty" "No tanks yet. Use Add Tank to create one."] := rfl

theorem bodyRows_cons (h : Host) (t : Tank) (ts : List Tank) (rs ps se pe : JSVal) :
    bodyRows h (t :: ts) rs ps se pe =
      (mapRows (tankRow h rs ps se pe) (t :: ts)).map (List.map BodyRow.tank) := by
  unfold bodyRows
  cases mapRows (tankRow h rs ps se pe) (t :: ts) <;> rfl

/-- C6: with an empty registry the table body is, for every state of the two
fetches, exactly one row, the placeholder row whose single cell spans as many
columns as the header has (9); with a non-empty registry no rendered row is a
placeholder row. -/
theorem C6_placeholder_row_iff_empty_registry (h : Host) (sd pd se pe : JSVal) :
    render h [] sd pd se pe = Except.ok
      [BodyRow.placeholder headerColumns.length "empty"
        "No tanks yet. Use Add Tank to create one."] ∧
    headerColumns.length = 9 ∧
    ∀ (tanks : List Tank) (rows : List BodyRow), tanks ≠ [] →
      render h tanks sd pd se pe = Except.ok rows → ∀ r ∈ rows, r.isPlaceholder = false := by
  refine ⟨?_, rfl, ?_⟩
  · rw [render_eq, bodyRows_nil]
    rfl
  · intro tanks rows hne hEq r hr
    cases tanks with
    | nil => exact absurd rfl hne
    | cons t ts =>
      rw [render_eq, bodyRows_cons] at hEq
      cases hm : mapRows (tankRow h
          (if truthy sd then projected sd "tank1" "tank2" else emptyObj)
          (if truthy pd then projected pd "tank1_prediction" "tank2_prediction" else emptyObj)
          se pe) (t :: ts) with
      | error e => rw [hm] at hEq; cases hEq
      | ok rs0 =>
        rw [hm] at hEq
        have e := Except.ok.inj hEq
        subst e
        obtain ⟨row, _, hrow⟩ := List.mem_map.mp hr
        rw [← hrow]
        rfl

/-- C6 at work: the initial registry before the first fetch renders two tank
rows and no placeholder row. -/
theorem C6_placeholder_row_iff_empty_registry_witness :
    initialTanks ≠ [] ∧
    ∀ r ∈ [BodyRow.tank (assembleRow emptyObj JSVal.undefined JSVal.undefined
              ⟨"tank1", "Main Building", "Rooftop", 1500, "/tank1.jpg"⟩
              (JSVal.str "-") (JSVal.str "-") (JSVal.str "-") "-"),
           BodyRow.tank (assembleRow emptyObj JSVal.undefined JSVal.undefined
              ⟨"tank2", "Annex Building", "Underground", 1900, "/tank2.jpg"⟩
              (JSVal.str "-") (JSVal.str "-") (JSVal.str "-") "-")],
      r.isPlaceholder = false :=
  ⟨by decide,
    (C6_placeholder_row_iff_empty_registry strictHost JSVal.undefined JSVal.undefined
      JSVal.undefined JSVal.undefined).2.2 initialTanks _ (by decide) rfl⟩

/-- Rows are driven by the registry: whenever the body renders, it has one row
per registry tank, in registry order, each the row of its tank, and a
placeholder row in front only for the empty registry. -/
theorem render_rows_follow_registry (h : Host) (tanks : List Tank) (sd pd se pe : JSVal)
    (rows : List BodyRow) (hEq : render h tanks sd pd se pe = Except.ok rows) :
    ∃ tankRows : List Row,
      rows = (if tanks.length == 0 then
                [BodyRow.placeholder 9 "empty" "No tanks yet. Use Add Tank to create one."]
              else []) ++ tankRows.map BodyRow.tank ∧
      tankRows.length = tanks.length ∧
      List.Forall₂ (fun t r => renderRow h sd pd se pe t = Except.ok r) tanks tankRows := by
  rw [render_eq] at hEq
  unfold bodyRows at hEq
  cases hm : mapRows (tankRow h
      (if truthy sd then projected sd "tank1" "tank2" else emptyObj)
      (if truthy pd then projected pd "tank1_prediction" "tank2_prediction" else emptyObj)
      se pe) tanks with
  | error e => simp [hm, bind, Except.bind] at hEq
  | ok trs =>
    simp only [hm, bind, Except.bind] at hEq
    have e := Except.ok.inj hEq
    have hf := mapRows_forall₂ _ _ _ hm
    refine ⟨trs, e.symm, hf.length_eq.symm, ?_⟩
    simpa only [tankRow_projection_eq] using hf

theorem toPrimitive_of_primitive (h : Host) {v : JSVal} (hv : isPrimitive v = true) :
    toPrimitive h v = Except.ok v := by
  cases v <;> simp_all [isPrimitive, toPrimitive]

theorem fixedCell_total (h : Host) {v : JSVal} (hv : numericOrFalsy v = true) :
    ∃ c, fixedCell h v = Except.ok c := by
  unfold fixedCell
  cases ht : truthy v
  · exact ⟨_, rfl⟩
  · cases v <;> simp_all [numericOrFalsy, isNumber, callToFixed2]

theorem roundCell_total (h : Host) {v : JSVal} (hv : isPrimitive v = true) :
    ∃ c, roundCell h v = Except.ok c := by
  unfold roundCell toNumber
  rw [toPrimitive_of_primitive h hv]
  cases truthy v
  · exact ⟨_, rfl⟩
  · exact ⟨_, rfl⟩

theorem dueDateText_total (h : Host) {d : JSVal} (hd : isPrimitive d = true) :
    ∃ t, dueDateText h (jsOr d (JSVal.str "-")) = Except.ok t := by
  have hprim : isPrimitive (jsOr d (JSVal.str "-")) = true := by
    unfold jsOr
    split
    · exact hd
    · rfl
  unfold dueDateText
  rw [toPrimitive_of_primitive h hprim]
  cases strictEqStr (jsOr d (JSVal.str "-")) "-"
  · exact ⟨_, rfl⟩
  · exact ⟨_, rfl⟩

theorem rowFrom_total (h : Host) (r p se pe : JSVal) (tank : Tank)
    (hph : numericOrFalsy (field r "ph") = true)
    (htds : isPrimitive (field r "tds") = true)
    (htu : numericOrFalsy (field r "turbidity") = true)
    (hdate : isPrimitive (field p "predicted_date") = true) :
    ∃ row, rowFrom h r p se pe tank = Except.ok row := by
  obtain ⟨a, ha⟩ := fixedCell_total h hph
  obtain ⟨t, ht⟩ := roundCell_total h htds
  obtain ⟨b, hb⟩ := fixedCell_total h htu
  obtain ⟨d, hd⟩ := dueDateText_total h hdate
  exact ⟨assembleRow p se pe tank a t b d, by simp [rowFrom, ha, ht, hb, hd, bind, Except.bind]⟩

/-- The body renders whenever, for every registry tank, the pH and turbidity
fields of its reading are numbers or falsy and the TDS field and the predicted
date are primitives. -/
theorem render_total_of_typed_fields (h : Host) (tanks : List Tank) (sd pd se pe : JSVal)
    (htyped : ∀ t ∈ tanks, ∀ r p, rowReading sd t = Except.ok r →
      rowPrediction pd t = Except.ok p →
      numericOrFalsy (field r "ph") = true ∧ isPrimitive (field r "tds") = true ∧
      numericOrFalsy (field r "turbidity") = true ∧
      isPrimitive (field p "predicted_date") = true) :
    ∃ rows, render h tanks sd pd se pe = Except.ok rows := by
  have hrows : ∃ trs, mapRows (renderRow h sd pd se pe) tanks = Except.ok trs := by
    apply mapRows_total
    intro t ht
    obtain ⟨h1, h2, h3, h4⟩ := htyped t ht _ _ (rowReading_eq sd t) (rowPrediction_eq pd t)
    rw [renderRow_eq]
    exact rowFrom_total h _ _ se pe t h1 h2 h3 h4
  obtain ⟨trs, htrs⟩ := hrows
  rw [render_eq]
  unfold bodyRows
  have hfun : tankRow h (if truthy sd then projected sd "tank1" "tank2" else emptyObj)
      (if truthy pd then projected pd "tank1_prediction" "tank2_prediction" else emptyObj)
      se pe = renderRow h sd pd se pe := funext (tankRow_projection_eq h sd pd se pe)
  rw [hfun, htrs]
  exact ⟨_, rfl⟩

/-- C7 fails on the code: with the string `"7.2"` as the pH of `tank1` the
`tanks.map` callback throws at `r.ph.toFixed(2)`, so the initial registry of two
tanks renders no row at all. -/
theorem C7_render_throws_on_string_ph :
    render strictHost initialTanks
      (JSVal.obj [("tank1", JSVal.obj [("ph", JSVal.str "7.2")])])
      JSVal.undefined JSVal.undefined JSVal.undefined
      = Except.error (JSError.typeError "toFixed is not a function") := rfl

/-! ## C8, C9: the due cell and the badge -/

theorem strictEqStr_iff (v : JSVal) (s : String) : strictEqStr v s = true ↔ v = JSVal.str s := by
  cases v <;> simp [strictEqStr]

/-- What a rendered row holds, in terms of the reading and the prediction
projected for its tank. -/
theorem renderRow_fields (h : Host) (sd pd se pe : JSVal) (tank : Tank) (row : Row)
    (hEq : renderRow h sd pd se pe tank = Except.ok row) :
    row.status = statusOf (looked pd "tank1_prediction" "tank2_prediction" tank.id) se pe ∧
    row.badge = "badge " ++ badgeClass row.status ∧
    row.days = dueDays
      (field (looked pd "tank1_prediction" "tank2_prediction" tank.id) "days_remaining") ∧
    fixedCell h (field (looked sd "tank1" "tank2" tank.id) "ph") = Except.ok row.ph ∧
    roundCell h (field (looked sd "tank1" "tank2" tank.id) "tds") = Except.ok row.tds ∧
    fixedCell h (field (looked sd "tank1" "tank2" tank.id) "turbidity")
      = Except.ok row.turbidity ∧
    dueDateText h
      (jsOr (field (looked pd "tank1_prediction" "tank2_prediction" tank.id) "predicted_date")
        (JSVal.str "-")) = Except.ok row.dueDate := by
  rw [renderRow_eq] at hEq
  unfold rowFrom at hEq
  cases ha : fixedCell h (field (looked sd "tank1" "tank2" tank.id) "ph") with
  | error e => simp [ha, bind, Except.bind] at hEq
  | ok a =>
    cases ht : roundCell h (field (looked sd "tank1" "tank2" tank.id) "tds") with
    | error e => simp [ha, ht, bind, Except.bind] at hEq
    | ok t =>
      cases hb : fixedCell h (field (looked sd "tank1" "tank2" tank.id) "turbidity") with
      | error e => simp [ha, ht, hb, bind, Except.bind] at hEq
      | ok b =>
        cases hd : dueDateText h
            (jsOr (field (looked pd "tank1_prediction" "tank2_prediction" tank.id)
              "predicted_date") (JSVal.str "-")) with
        | error e => simp [ha, ht, hb, hd, bind, Except.bind] at hEq
        | ok d =>
          simp only [ha, ht, hb, hd, bind, Except.bind] at hEq
          have e := Except.ok.inj hEq
          subst e
          exact ⟨rfl, rfl, rfl, rfl, rfl, rfl, rfl⟩

/-- The due cell throws on an object that cannot be converted to a primitive:
`new Date(due)` with `due = {"valueOf": 0, "toString": 0}`. -/
theorem dueDateText_throws_on_unconvertible_object (h : Host) :
    dueDateText h (JSVal.obj [("valueOf", JSVal.num (JSNum.fin 0 0)),
        ("toString", JSVal.num (JSNum.fin 0 0))])
      = Except.error (JSError.typeError "Cannot convert object to primitive value") := rfl

theorem isIsoDateString_length {s : String} (hs : isIsoDateString s = true) :
    10 ≤ s.data.length := by
  unfold isIsoDateString at hs
  split at hs
  · next heq =>
    rw [heq]
    simp
  · cases hs

theorem isIsoDateString_ne_dash {s : String} (hs : isIsoDateString s = true) :
    strictEqStr (JSVal.str s) "-" = false := by
  have hl := isIsoDateString_length hs
  rw [Bool.eq_false_iff]
  intro hc
  have e := (strictEqStr_iff _ _).mp hc
  injection e with e2
  rw [e2] at hl
  exact absurd hl (by decide)

theorem isIsoDateString_truthy {s : String} (hs : isIsoDateString s = true) :
    truthy (JSVal.str s) = true := by
  have hl := isIsoDateString_length hs
  have hne : s ≠ "" := by
    intro e
    rw [e] at hl
    exact absurd hl (by decide)
  simp [truthy, hne]

/-- C8: for every prediction object `p` of the data model.  When
`predicted_date` is absent (or otherwise falsy) the due cell shows `"-"`; when
it is present, an ISO date string, the cell shows its formatted local date.
When `days_remaining` is a number the cell also shows
`Math.max(0, days_remaining)`, which is never below zero, is `days_remaining`
itself when that is zero or above and `0` when it is below zero; when
`days_remaining` is not a number no day count is shown. -/
theorem C8_due_cell (h : Host) (p : JSVal) (hp : truthy p = true) :
    (truthy (field p "predicted_date") = false →
      (dueOf p >>= dueDateText h) = Except.ok "-") ∧
    (∀ s : String, field p "predicted_date" = JSVal.str s → isIsoDateString s = true →
      (dueOf p >>= dueDateText h) = Except.ok (h.localeDate (JSVal.str s))) ∧
    (∀ n, field p "days_remaining" = JSVal.num n →
      dueDays (field p "days_remaining") = some (mathMax0 n) ∧
      (mathMax0 n).isNeg = false ∧
      (n.isNonneg = true → mathMax0 n = n) ∧
      (n.isNeg = true → mathMax0 n = JSNum.fin 0 0)) ∧
    (isNumber (field p "days_remaining") = false → dueDays (field p "days_remaining") = none) := by
  refine ⟨?_, ?_, ?_, ?_⟩
  · intro ht
    rw [dueOf_eq hp, jsOr_of_falsy _ ht]
    rfl
  · intro s hs hiso
    rw [dueOf_eq hp, hs, jsOr_of_truthy _ (isIsoDateString_truthy hiso)]
    show dueDateText h (JSVal.str s) = _
    unfold dueDateText
    rw [isIsoDateString_ne_dash hiso]
    rfl
  · intro n hn
    rw [hn]
    refine ⟨rfl, ?_, ?_, ?_⟩
    · cases n with
      | nan => rfl
      | inf neg => cases neg <;> rfl
      | fin m k =>
        by_cases hm : m < 0
        · simp [mathMax0, hm, JSNum.isNeg]
        · simp [mathMax0, hm, JSNum.isNeg]
    · intro hnn
      cases n with
      | nan => rfl
      | inf neg => cases neg <;> simp_all [JSNum.isNonneg, mathMax0]
      | fin m k =>
        have hm : ¬ m < 0 := by simpa [JSNum.isNonneg] using hnn
        simp [mathMax0, hm]
    · intro hneg
      cases n with
      | nan => simp [JSNum.isNeg] at hneg
      | inf neg => cases neg <;> simp_all [JSNum.isNeg, mathMax0]
      | fin m k =>
        have hm : m < 0 := by simpa [JSNum.isNeg] using hneg
        simp [mathMax0, hm]
  · intro hnum
    cases hd : field p "days_remaining" <;> simp_all [isNumber, dueDays]

/-- C8 at work: a date with `-3` days remaining shows the formatted date and
the day count `0`. -/
theorem C8_due_cell_witness :
    truthy (JSVal.obj [("predicted_date", JSVal.str "2025-01-31"),
      ("days_remaining", JSVal.num (JSNum.fin (-3) 0))]) = true ∧
    isIsoDateString "2025-01-31" = true ∧
    (dueOf (JSVal.obj [("predicted_date", JSVal.str "2025-01-31"),
      ("days_remaining", JSVal.num (JSNum.fin (-3) 0))]) >>= dueDateText strictHost)
      = Except.ok "1/31/2025" ∧
    dueDays (JSVal.num (JSNum.fin (-3) 0)) = some (JSNum.fin 0 0) :=
  ⟨rfl, by decide,
    (C8_due_cell strictHost (JSVal.obj [("predicted_date", JSVal.str "2025-01-31"),
      ("days_remaining", JSVal.num (JSNum.fin (-3) 0))]) rfl).2.1 "2025-01-31" rfl (by decide),
    ((C8_due_cell strictHost (JSVal.obj [("predicted_date", JSVal.str "2025-01-31"),
      ("days_remaining", JSVal.num (JSNum.fin (-3) 0))]) rfl).2.2.1 (JSNum.fin (-3) 0) rfl).1⟩

/-- C9: the badge class depends on the status label only and takes exactly four
values: `"Good"` gives `badge-secondary`, `"Moderate"` gives `badge-warning`,
`"Poor"` and `"Error"` both give `badge-danger`, and every other label, the two
spellings of the loading label included, gives `badge-default`. -/
theorem C9_badge_class_of_status (v : JSVal) :
    badgeClass (JSVal.str "Good") = "badge-secondary" ∧
    badgeClass (JSVal.str "Moderate") = "badge-warning" ∧
    badgeClass (JSVal.str "Poor") = "badge-danger" ∧
    badgeClass (JSVal.str "Error") = "badge-danger" ∧
    badgeClass (JSVal.str "Loading...") = "badge-default" ∧
    badgeClass (JSVal.str "Loading…") = "badge-default" ∧
    (v ≠ JSVal.str "Good" → v ≠ JSVal.str "Moderate" → v ≠ JSVal.str "Poor" →
      v ≠ JSVal.str "Error" → badgeClass v = "badge-default") ∧
    badgeClass v ∈ ["badge-secondary", "badge-warning", "badge-danger", "badge-default"] ∧
    ["badge-secondary", "badge-warning", "badge-danger", "badge-default"].Nodup := by
  refine ⟨by decide, by decide, by decide, by decide, by decide, by decide, ?_, ?_, by decide⟩
  · intro h1 h2 h3 h4
    have e1 : strictEqStr v "Good" = false := by
      rw [Bool.eq_false_iff]; exact fun hc => h1 ((strictEqStr_iff _ _).mp hc)
    have e2 : strictEqStr v "Moderate" = false := by
      rw [Bool.eq_false_iff]; exact fun hc => h2 ((strictEqStr_iff _ _).mp hc)
    have e3 : strictEqStr v "Poor" = false := by
      rw [Bool.eq_false_iff]; exact fun hc => h3 ((strictEqStr_iff _ _).mp hc)
    have e4 : strictEqStr v "Error" = false := by
      rw [Bool.eq_false_iff]; exact fun hc => h4 ((strictEqStr_iff _ _).mp hc)
    simp [badgeClass, e1, e2, e3, e4]
  · unfold badgeClass
    split
    · simp
    · split
      · simp
      · split
        · simp
        · split <;> simp

/-- C9 at work: an unknown status text gets the neutral class. -/
theorem C9_badge_class_of_status_witness :
    badgeClass (JSVal.str "Unknown") = "badge-default" :=
  (C9_badge_class_of_status (JSVal.str "Unknown")).2.2.2.2.2.2.1
    (by intro hEq; injection hEq with h2; exact absurd h2 (by decide))
    (by intro hEq; injection hEq with h2; exact absurd h2 (by decide))
    (by intro hEq; injection hEq with h2; exact absurd h2 (by decide))
    (by intro hEq; injection hEq with h2; exact absurd h2 (by decide))

/-! ## C10: the stale-response guard -/

theorem seqLe_refl (s : EndpointState) : s.seqLe s := by
  unfold EndpointState.seqLe
  cases s.applied <;> simp

theorem seqLe_trans {s t u : EndpointState} (h1 : s.seqLe t) (h2 : t.seqLe u) : s.seqLe u := by
  unfold EndpointState.seqLe at *
  cases hs : s.applied <;> cases ht : t.applied <;> cases hu : u.applied <;>
    simp_all
  omega

theorem seqLe_applyResponse (s : EndpointState) (r : PollResponse) :
    s.seqLe (applyResponse s r) := by
  unfold applyResponse
  cases hs : s.applied with
  | none => simp [EndpointState.seqLe, hs]
  | some a =>
    by_cases hlt : r.seq < a
    · simp [hlt, EndpointState.seqLe, hs]
    · simp [hlt, EndpointState.seqLe, hs]
      omega

theorem seqLe_applyResponses (rs : List PollResponse) :
    ∀ s : EndpointState, s.seqLe (applyResponses s rs) := by
  induction rs with
  | nil => intro s; exact seqLe_refl s
  | cons r rs ih =>
    intro s
    exact seqLe_trans (seqLe_applyResponse s r) (ih (applyResponse s r))

/-- C10: in the guard as the specification describes it, a response to request
`N` that arrives when the response to request `N + 1` is applied leaves the
view state of the endpoint unchanged, and over every sequence of responses the
applied sequence number never decreases. -/
theorem C10_stale_response_is_discarded (s : EndpointState) (r : PollResponse)
    (rs : List PollResponse) (n : Nat) (hs : s.applied = some (n + 1)) (hr : r.seq = n) :
    applyResponse s r = s ∧ s.seqLe (applyResponses s rs) ∧
    ∃ b, (applyResponses s rs).applied = some b ∧ n + 1 ≤ b := by
  refine ⟨?_, seqLe_applyResponses rs s, ?_⟩
  · unfold applyResponse
    rw [hs]
    simp [hr]
  · have hle := seqLe_applyResponses rs s
    unfold EndpointState.seqLe at hle
    rw [hs] at hle
    cases hb : (applyResponses s rs).applied with
    | none => simp [hb] at hle
    | some b =>
      simp [hb] at hle
      exact ⟨b, rfl, hle⟩

/-- C10 at work: the responses to requests 1 and 2 are applied, then the late
response to request 1 arrives again and changes nothing. -/
theorem C10_stale_response_is_discarded_witness :
    (applyResponses EndpointState.initial
        [⟨1, JSVal.str "first"⟩, ⟨2, JSVal.str "second"⟩]).applied = some (1 + 1) ∧
    applyResponse (applyResponses EndpointState.initial
        [⟨1, JSVal.str "first"⟩, ⟨2, JSVal.str "second"⟩]) ⟨1, JSVal.str "first"⟩
      = applyResponses EndpointState.initial
        [⟨1, JSVal.str "first"⟩, ⟨2, JSVal.str "second"⟩] :=
  ⟨rfl, (C10_stale_response_is_discarded
    (applyResponses EndpointState.initial [⟨1, JSVal.str "first"⟩, ⟨2, JSVal.str "second"⟩])
    ⟨1, JSVal.str "first"⟩ [] 1 rfl rfl).1⟩

end TankDashboard
